import Mathlib

/-!
Shallow embedding of the WebSocket demo servers
`src/examples/axum.rs` (fan-out chat relay) and
`src/examples/axum_read_write.rs` (self-driven writer / logging reader).

The broadcast Hub is the `tokio::sync::broadcast` channel created at
`axum.rs:24` with capacity 100.  Its documented semantics, embedded here:
a bounded ring of the most recent `cap` published values; `subscribe`
starts a cursor at the current end of the stream; `recv` on a cursor that
fell more than `cap` behind returns a `Lagged` error once and repositions
the cursor at the oldest still-retained value.  Publishing never blocks
and always buffers the value (the `_rx` receiver held alive by `main`
guarantees at least one subscriber, so `tx.send` never rejects).
-/

namespace WsDemo

/-- Hub state: the full sequence of published messages (history) together
with the ring capacity.  Only the last `cap` entries are retained; the
history list is the ghost sequence of every publish, used to index
messages by publish order. -/
structure Hub where
  cap : Nat
  history : List String
deriving DecidableEq

/-- Models `tx.send(msg)` (`axum.rs:209`): appends the message to the
stream.  Total: publishing never blocks and never fails. -/
def Hub.publish (h : Hub) (m : String) : Hub :=
  { h with history := h.history ++ [m] }

/-- Models `state.tx.subscribe()` (`axum.rs:180`): a fresh cursor starting
at the current end of the stream (no history is visible). -/
def Hub.subscribe (h : Hub) : Nat :=
  h.history.length

/-- Result of one `rx.recv().await` on a subscription. -/
inductive RecvResult where
  | msg (s : String)
  | lagged (missed : Nat)
  | pending
deriving DecidableEq

/-- Models `rx.recv().await` for a subscription with cursor `c`:
if the cursor is at the end the call suspends (`pending`); if it fell
more than `cap` behind it returns a `Lagged` error and repositions the
cursor at the oldest retained entry; otherwise it returns the message at
the cursor and advances by one. -/
def Hub.recv (h : Hub) (c : Nat) : RecvResult × Nat :=
  let len := h.history.length
  if len ≤ c then (.pending, c)
  else if c + h.cap < len then (.lagged (len - h.cap - c), len - h.cap)
  else (.msg (h.history.getD c ""), c + 1)

/-- Index `i` of the publish history is still retained by the ring. -/
def Hub.retained (h : Hub) (i : Nat) : Prop :=
  i < h.history.length ∧ h.history.length ≤ i + h.cap

instance (h : Hub) (i : Nat) : Decidable (h.retained i) := by
  unfold Hub.retained; infer_instance

/-- Frame model (`axum::extract::ws::Message`): text, binary, ping, pong,
close with optional reason. -/
inductive Frame where
  | text (s : String)
  | binary (b : List Nat)
  | ping (b : List Nat)
  | pong (b : List Nat)
  | close (reason : Option String)
deriving DecidableEq

/-- Whether a task loop iteration continues or leaves the loop. -/
inductive LoopAct where
  | cont
  | halt
deriving DecidableEq

/-- The broadcast string built by the fan-out reader for an inbound text
frame: `format!("[{}]: {}", user_id, text)` (`axum.rs:208`). -/
def broadcastFmt (id text : String) : String :=
  "[" ++ id ++ "]: " ++ text

/-- Output of one iteration of the fan-out reader loop. -/
structure ReadStepOut where
  hub : Hub
  writes : List Frame
  act : LoopAct
deriving DecidableEq

/-- One iteration of the fan-out reader (`recv_task`, `axum.rs:202-218`):
`while let Some(Ok(msg))` exits on a read error; `Text` is republished to
the Hub with the identifier prefix; `Close` breaks the loop; all other
frames fall to `_ => {}`.  The reader owns only the receiving half of the
socket, so no branch writes a frame (`writes` is empty in every branch). -/
def recvTaskStep (id : String) (h : Hub) (item : Except String Frame) : ReadStepOut :=
  match item with
  | .error _ => { hub := h, writes := [], act := .halt }
  | .ok (.text s) => { hub := h.publish (broadcastFmt id s), writes := [], act := .cont }
  | .ok (.binary _) => { hub := h, writes := [], act := .cont }
  | .ok (.ping _) => { hub := h, writes := [], act := .cont }
  | .ok (.pong _) => { hub := h, writes := [], act := .cont }
  | .ok (.close _) => { hub := h, writes := [], act := .halt }

/-- Action of the fan-out writer loop on one `rx.recv()` outcome. -/
inductive WriterAct where
  | deliver (s : String)
  | wait
  | halt
deriving DecidableEq

/-- One iteration of the fan-out writer (`send_task`, `axum.rs:191-197`):
`while let Ok(msg) = rx.recv().await` forwards a received message and
exits the loop whenever `recv` returns an error — including `Lagged`. -/
def sendTaskStep (h : Hub) (c : Nat) : WriterAct × Nat :=
  match h.recv c with
  | (.msg s, c') => (.deliver s, c')
  | (.lagged _, c') => (.halt, c')
  | (.pending, c') => (.wait, c')

/-- Messages the fan-out writer delivers from a hub snapshot, starting at
cursor `c`, before it would suspend: iterates the loop body of `send_task`
(successful socket writes assumed). -/
def sendTaskRun : Nat → Hub → Nat → List String
  | 0, _, _ => []
  | fuel + 1, h, c =>
    match h.recv c with
    | (.msg s, c') => s :: sendTaskRun fuel h c'
    | (.lagged _, _) => []
    | (.pending, _) => []

/-- All messages `send_task` writes for the current hub snapshot. -/
def sendTaskDeliver (h : Hub) (c : Nat) : List String :=
  sendTaskRun h.history.length h c

/-- Session identifier (`axum.rs:183`): the first 8 characters of the
freshly generated UUID string, `Uuid::new_v4().to_string()[..8]`.  The
UUID string itself is abstracted as a parameter (the generator is an
out-of-scope utility); its hyphenated form is ASCII, so the byte slice is
the first 8 characters. -/
def sessionId (uuid : String) : String :=
  String.mk (uuid.data.take 8)

/-- The one-time welcome message (`axum.rs:187`):
`format!("欢迎! 你的ID是: {}", user_id)`. -/
def welcomeMsg (id : String) : String :=
  "欢迎! 你的ID是: " ++ id

/-- Outbound frame sequence of one fan-out session (`axum.rs:186-197`):
the welcome text is written before `send_task` is spawned, so it precedes
every Hub-relayed text frame. -/
def fanoutOutbound (uuid : String) (relayed : List String) : List Frame :=
  .text (welcomeMsg (sessionId uuid)) :: relayed.map .text

/-- Status of one spawned task. -/
inductive TaskStatus where
  | running
  | done
  | aborted
deriving DecidableEq

/-- The `JoinHandle.abort` call: cancels a running task; idempotent and
harmless on a task that already finished or was already cancelled. -/
def abortTask : TaskStatus → TaskStatus
  | .running => .aborted
  | s => s

/-- Per-session task pair. -/
structure SessionTasks where
  reader : TaskStatus
  writer : TaskStatus
deriving DecidableEq

/-- Supervisor phase of a session. -/
inductive Phase where
  | active
  | closed
deriving DecidableEq

/-- Which task the `select!` saw complete first. -/
inductive FirstDone where
  | readerFirst
  | writerFirst
deriving DecidableEq

/-- The fan-out supervisor (`axum.rs:221-224`):
`tokio::select!` on the two join handles followed by an explicit
`abort()` of the sibling; afterwards `handle_socket` returns and the
session is closed. -/
def supervise (s : SessionTasks) : FirstDone → SessionTasks × Phase
  | .readerFirst => ({ reader := .done, writer := abortTask s.writer }, .closed)
  | .writerFirst => ({ reader := abortTask s.reader, writer := .done }, .closed)

/-- The read-write supervisor (`axum_read_write.rs:237-240`):
`tokio::select!` consumes both join handles and merely awaits the first
completion; the `JoinHandle` of the losing branch is dropped, which detaches
the task — no `abort()` is called, so the sibling keeps running after
`handle_socket` returns. -/
def superviseRW (s : SessionTasks) : FirstDone → SessionTasks × Phase
  | .readerFirst => ({ s with reader := .done }, .closed)
  | .writerFirst => ({ s with writer := .done }, .closed)

/-- The Hub subscription `rx` is owned by `send_task` (`axum.rs:191`),
so it is alive exactly while the writer task runs. -/
def subscriptionLive (s : SessionTasks) : Bool :=
  s.writer = .running

/-- Some task of the session is still running. -/
def pendingTask (s : SessionTasks) : Bool :=
  s.reader = .running || s.writer = .running

/-- One iteration of the reader of the read-write server (`read`,
`axum_read_write.rs:246-280`): every frame kind is logged; `Close` and a
read error break the loop; the reader holds only `SplitStream`, so no
branch writes a frame.  Returns the frames written and the loop action. -/
def readLoopStep (item : Except String Frame) : List Frame × LoopAct :=
  match item with
  | .error _ => ([], .halt)
  | .ok (.text _) => ([], .cont)
  | .ok (.binary _) => ([], .cont)
  | .ok (.ping _) => ([], .cont)
  | .ok (.pong _) => ([], .cont)
  | .ok (.close _) => ([], .halt)

/-- Per-tick message (`axum_read_write.rs:296`):
`format!("消息 #{} - 服务器时间: {}", counter, now.format("%H:%M:%S"))`;
the clock reading is abstracted as the string `hms`. -/
def tickMessage (counter : Nat) (hms : String) : String :=
  "消息 #" ++ toString counter ++ " - 服务器时间: " ++ hms

/-- Milestone message (`axum_read_write.rs:308`):
`format!("🎉 里程碑消息！已发送 {} 条消息", counter)`. -/
def milestoneMessage (counter : Nat) : String :=
  "🎉 里程碑消息！已发送 " ++ toString counter ++ " 条消息"

/-- One iteration of the self-driven writer loop (`write`,
`axum_read_write.rs:290-314`): the counter is incremented after the tick,
the per-tick message is sent (a failed send breaks the loop), and when
the new counter is a multiple of 10 one extra milestone message is sent
(a failed send again breaks the loop).  `okReg`/`okMil` model the success
of the two socket writes; the returned list holds the successfully
written frames in order, and the Bool tells whether the loop continues. -/
def writeTick (c : Nat) (hms : String) (okReg okMil : Bool) : Nat × List String × Bool :=
  let c' := c + 1
  let regular := tickMessage c' hms
  if okReg then
    if c' % 10 = 0 then
      if okMil then (c', [regular, milestoneMessage c'], true)
      else (c', [regular], false)
    else (c', [regular], true)
  else (c', [], false)

/-- The self-driven writer over a list of ticks (clock readings), with
every socket write succeeding — the normal infinite cadence. -/
def writeRun (c : Nat) : List String → Nat × List String
  | [] => (c, [])
  | hms :: rest =>
    let step := writeTick c hms true true
    let later := writeRun step.1 rest
    (later.1, step.2.1 ++ later.2)

/-- Operations interleaved against one subscription: a publish by anyone,
or a `recv` by this subscriber. -/
inductive HubOp where
  | pub (m : String)
  | recv
deriving DecidableEq

/-- Ghost trace of one subscription: hub state, cursor, and the publish
indices of every message this subscription has received. -/
structure SubTrace where
  hub : Hub
  cursor : Nat
  receivedIdx : List Nat
deriving DecidableEq

/-- One operation against the trace: a publish grows the hub; a `recv`
that yields a message records the cursor it read from and advances. -/
def traceStep (t : SubTrace) : HubOp → SubTrace
  | .pub m => { t with hub := t.hub.publish m }
  | .recv =>
    match t.hub.recv t.cursor with
    | (.msg _, c') => { t with cursor := c', receivedIdx := t.receivedIdx ++ [t.cursor] }
    | (.lagged _, c') => { t with cursor := c' }
    | (.pending, c') => { t with cursor := c' }

/-- Run a list of operations against a subscription trace. -/
def traceRun (t : SubTrace) (ops : List HubOp) : SubTrace :=
  ops.foldl traceStep t

/-- A fresh subscription on hub `h`: cursor at `h.subscribe`, nothing
received yet. -/
def subscribeAt (h : Hub) : SubTrace :=
  { hub := h, cursor := h.subscribe, receivedIdx := [] }

/-- A subscriber that has not lagged (at most `cap` behind) drains the
hub snapshot from its cursor onward, with no gap and in publish order. -/
theorem sendTaskRun_no_lag (h : Hub) :
    ∀ fuel c, h.history.length ≤ c + h.cap → h.history.length - c ≤ fuel →
      sendTaskRun fuel h c = h.history.drop c := by
  intro fuel
  induction fuel with
  | zero =>
    intro c _ hfuel
    have hc : h.history.length ≤ c := by omega
    simp [sendTaskRun, List.drop_eq_nil_of_le hc]
  | succ fuel ih =>
    intro c hcap hfuel
    by_cases hc : h.history.length ≤ c
    · simp [sendTaskRun, Hub.recv, hc, List.drop_eq_nil_of_le hc]
    · have hlt : c < h.history.length := by omega
      have hnl : ¬ c + h.cap < h.history.length := by omega
      rw [sendTaskRun]
      simp only [Hub.recv, if_neg hc, if_neg hnl]
      rw [ih (c + 1) (by omega) (by omega)]
      rw [List.getD_eq_getElem h.history "" hlt]
      exact (List.drop_eq_getElem_cons hlt).symm

/-- A `recv` never moves a cursor backwards. -/
theorem recv_cursor_le (h : Hub) (c : Nat) : c ≤ (h.recv c).2 := by
  by_cases h1 : h.history.length ≤ c
  · simp [Hub.recv, h1]
  · by_cases h2 : c + h.cap < h.history.length
    · simp only [Hub.recv, if_neg h1, if_pos h2]
      omega
    · simp [Hub.recv, h1, h2]

/-- One trace step preserves the bound `k` on the cursor and on every
received publish index. -/
theorem traceStep_inv (k : Nat) (t : SubTrace) (op : HubOp)
    (hc : k ≤ t.cursor) (hr : ∀ i ∈ t.receivedIdx, k ≤ i) :
    k ≤ (traceStep t op).cursor ∧ ∀ i ∈ (traceStep t op).receivedIdx, k ≤ i := by
  cases op with
  | pub m => exact ⟨hc, hr⟩
  | recv =>
    have hmono : t.cursor ≤ (t.hub.recv t.cursor).2 := recv_cursor_le t.hub t.cursor
    rcases hres : t.hub.recv t.cursor with ⟨res, c'⟩
    rw [hres] at hmono
    cases res with
    | msg s =>
      refine ⟨?_, ?_⟩
      · simp [traceStep, hres]; omega
      · simp only [traceStep, hres]
        intro i hi
        rcases List.mem_append.mp hi with h' | h'
        · exact hr i h'
        · simp at h'; omega
    | lagged n =>
      refine ⟨?_, ?_⟩
      · simp [traceStep, hres]; omega
      · simp only [traceStep, hres]; exact hr
    | pending =>
      refine ⟨?_, ?_⟩
      · simp [traceStep, hres]; omega
      · simp only [traceStep, hres]; exact hr

/-- The trace invariant holds along any run of operations. -/
theorem traceRun_inv (k : Nat) (ops : List HubOp) :
    ∀ t : SubTrace, k ≤ t.cursor → (∀ i ∈ t.receivedIdx, k ≤ i) →
      k ≤ (traceRun t ops).cursor ∧ ∀ i ∈ (traceRun t ops).receivedIdx, k ≤ i := by
  induction ops with
  | nil => intro t hc hr; exact ⟨hc, hr⟩
  | cons op rest ih =>
    intro t hc hr
    have step := traceStep_inv k t op hc hr
    simpa [traceRun] using ih (traceStep t op) step.1 step.2

/-- The counter of the self-driven writer grows by exactly one per tick. -/
theorem writeRun_counter (ticks : List String) :
    ∀ c, (writeRun c ticks).1 = c + ticks.length := by
  induction ticks with
  | nil => intro c; simp [writeRun]
  | cons t rest ih =>
    intro c
    have hstep : (writeTick c t true true).1 = c + 1 := by
      by_cases h10 : (c + 1) % 10 = 0 <;> simp [writeTick, h10]
    simp [writeRun, hstep, ih]
    omega

/-- C1 counterexample: with capacity 100, after 101 publishes a
subscriber whose cursor is still at 0 has lagged past the retention
window; its next `recv` returns the `Lagged` error — not the oldest
retained message — and the `while let Ok` loop of the fan-out writer halts
instead of continuing. -/
theorem lag_not_transparent_cex :
    (Hub.recv ⟨100, List.replicate 101 "x"⟩ 0).1 = .lagged 1 ∧
    (∀ s, (Hub.recv ⟨100, List.replicate 101 "x"⟩ 0).1 ≠ .msg s) ∧
    (sendTaskStep ⟨100, List.replicate 101 "x"⟩ 0).1 = .halt := by
  refine ⟨by decide, ?_, by decide⟩
  intro s hs
  have : RecvResult.lagged 1 = RecvResult.msg s := by
    rw [← hs]; decide
  exact RecvResult.noConfusion this

/-- C1 amended: when a subscription has lagged past the retention window
(more than `cap` undelivered messages), its next `recv` returns a
`Lagged` error and repositions the cursor at the oldest still-retained
message; the `send_task` loop treats that error as completion and halts;
only a subsequent `recv` (which this writer never performs) would return
the oldest still-retained message. -/
theorem lag_error_halts_writer (h : Hub) (c : Nat)
    (hlag : c + h.cap < h.history.length) (hcap : 0 < h.cap) :
    (h.recv c).1 = .lagged (h.history.length - h.cap - c) ∧
    (h.recv c).2 = h.history.length - h.cap ∧
    (sendTaskStep h c).1 = .halt ∧
    (h.recv (h.recv c).2).1 = .msg (h.history.getD (h.history.length - h.cap) "") := by
  have hc : ¬ h.history.length ≤ c := by omega
  have h1 : ¬ h.history.length ≤ h.history.length - h.cap := by omega
  have h2 : ¬ h.history.length - h.cap + h.cap < h.history.length := by omega
  refine ⟨?_, ?_, ?_, ?_⟩
  · simp [Hub.recv, hc, hlag]
  · simp [Hub.recv, hc, hlag]
  · simp [sendTaskStep, Hub.recv, hc, hlag]
  · simp [Hub.recv, hc, hlag, h1, h2]

/-- C1 witness: capacity 2, five publishes, cursor 0. -/
theorem lag_error_halts_writer_witness :
    (Hub.recv ⟨2, ["a", "b", "c", "d", "e"]⟩ 0).1 = .lagged 3 ∧
    (Hub.recv ⟨2, ["a", "b", "c", "d", "e"]⟩ 0).2 = 3 ∧
    (sendTaskStep ⟨2, ["a", "b", "c", "d", "e"]⟩ 0).1 = .halt ∧
    (Hub.recv ⟨2, ["a", "b", "c", "d", "e"]⟩
      (Hub.recv ⟨2, ["a", "b", "c", "d", "e"]⟩ 0).2).1 = .msg "d" :=
  lag_error_halts_writer ⟨2, ["a", "b", "c", "d", "e"]⟩ 0 (by decide) (by decide)

/-- C2 counterexample: in `axum_read_write.rs` the `select!` merely
awaits the first completion; with both tasks running and the reader
finishing first, the writer task is still `running` afterwards — the
supervisor never cancels the sibling, leaving a pending task. -/
theorem rw_supervisor_no_abort_cex :
    (superviseRW ⟨.running, .running⟩ .readerFirst).1.writer = .running ∧
    pendingTask (superviseRW ⟨.running, .running⟩ .readerFirst).1 = true := by
  decide

/-- C2 amended: in the fan-out server (`axum.rs`) the supervisor aborts
the sibling on first completion and the session closes with no running
task and no live subscription; in the read-write server
(`axum_read_write.rs`) the supervisor only awaits the first completion
and returns, leaving the sibling detached and, if it was running, still
running. -/
theorem supervisor_behavior (s : SessionTasks) (e : FirstDone) :
    ((supervise s e).2 = .closed ∧
      pendingTask (supervise s e).1 = false ∧
      subscriptionLive (supervise s e).1 = false) ∧
    ((superviseRW s e).2 = .closed ∧
      (e = .readerFirst → (superviseRW s e).1.writer = s.writer) ∧
      (e = .writerFirst → (superviseRW s e).1.reader = s.reader)) := by
  rcases s with ⟨r, w⟩
  cases e <;> cases r <;> cases w <;> decide

/-- C3 confirmed: a text frame `s` from the session with identifier `id`
is republished as exactly `"[" ++ id ++ "]: " ++ s`, and any other
session whose subscription predates the publish and has not lagged
receives, from this hub snapshot, exactly the earlier post-subscription
messages followed by that string — i.e. delivery in publish order. -/
theorem fanout_delivery (h : Hub) (id s : String) (c : Nat)
    (hsub : c ≤ h.history.length)
    (hlag : h.history.length + 1 ≤ c + h.cap) :
    broadcastFmt id s = "[" ++ id ++ "]: " ++ s ∧
    sendTaskDeliver (recvTaskStep id h (.ok (.text s))).hub c =
      h.history.drop c ++ [broadcastFmt id s] := by
  refine ⟨rfl, ?_⟩
  have hlen : (recvTaskStep id h (.ok (.text s))).hub.history =
      h.history ++ [broadcastFmt id s] := rfl
  have hcap : (recvTaskStep id h (.ok (.text s))).hub.cap = h.cap := rfl
  rw [sendTaskDeliver, sendTaskRun_no_lag]
  · rw [hlen]
    rw [List.drop_append_eq_append_drop]
    simp [Nat.sub_eq_zero_of_le hsub]
  · simp [hlen, hcap]; omega
  · omega

/-- C3 witness: an empty hub, a subscriber from the start, one publish. -/
theorem fanout_delivery_witness :
    broadcastFmt "u1" "hello" = "[" ++ "u1" ++ "]: " ++ "hello" ∧
    sendTaskDeliver (recvTaskStep "u1" ⟨100, []⟩ (.ok (.text "hello"))).hub 0 =
      (Hub.mk 100 []).history.drop 0 ++ [broadcastFmt "u1" "hello"] :=
  fanout_delivery ⟨100, []⟩ "u1" "hello" 0 (by decide) (by decide)

/-- C4 counterexample: the text of the welcome frame is the Chinese
`"欢迎! 你的ID是: <id>"`, not `"Welcome! Your id is: <id>"`. -/
theorem welcome_format_cex :
    fanoutOutbound "123e4567-e89b-12d3-a456-426614174000" [] =
      [Frame.text "欢迎! 你的ID是: 123e4567"] ∧
    "欢迎! 你的ID是: 123e4567" ≠ "Welcome! Your id is: 123e4567" := by
  decide

/-- C4 amended: for every fan-out connection exactly one welcome text
frame `"欢迎! 你的ID是: <session-id>"` is written, before any
Hub-relayed frame, where the session id is the 8-character prefix of the
freshly generated UUID string. -/
theorem fanout_welcome (uuid : String) (relayed : List String)
    (hlen : 8 ≤ uuid.length) :
    (fanoutOutbound uuid relayed).head? =
      some (.text ("欢迎! 你的ID是: " ++ sessionId uuid)) ∧
    (fanoutOutbound uuid relayed).tail = relayed.map .text ∧
    (sessionId uuid).length = 8 := by
  refine ⟨rfl, rfl, ?_⟩
  have hd : uuid.length = uuid.data.length := rfl
  show (uuid.data.take 8).length = 8
  rw [List.length_take]
  omega

/-- C4 witness: a 36-character UUID string and one relayed message. -/
theorem fanout_welcome_witness :
    (fanoutOutbound "123e4567-e89b-12d3-a456-426614174000" ["m"]).head? =
      some (.text ("欢迎! 你的ID是: " ++
        sessionId "123e4567-e89b-12d3-a456-426614174000")) ∧
    (fanoutOutbound "123e4567-e89b-12d3-a456-426614174000" ["m"]).tail =
      (["m"] : List String).map .text ∧
    (sessionId "123e4567-e89b-12d3-a456-426614174000").length = 8 :=
  fanout_welcome "123e4567-e89b-12d3-a456-426614174000" ["m"] (by decide)

/-- C5 counterexample: the text of the per-tick frame is
`"消息 #<counter> - 服务器时间: <HH:MM:SS>"`, not
`"Message #<counter> - server time: <HH:MM:SS>"`. -/
theorem tick_format_cex :
    (writeTick 0 "12:00:00" true true).2.1 = ["消息 #1 - 服务器时间: 12:00:00"] ∧
    "消息 #1 - 服务器时间: 12:00:00" ≠ "Message #1 - server time: 12:00:00" := by
  decide

/-- C5 amended: every tick increments the counter by exactly 1 and sends
exactly one frame `"消息 #<counter> - 服务器时间: <HH:MM:SS>"`; at each
tick whose counter is a multiple of 10 that frame is followed
immediately by exactly one extra frame
`"🎉 里程碑消息！已发送 <counter> 条消息"` before the next tick; over any
run the counter grows by exactly the number of ticks. -/
theorem write_tick_spec (c : Nat) (hms : String) (ticks : List String) :
    writeTick c hms true true =
      (c + 1,
        if (c + 1) % 10 = 0
        then [tickMessage (c + 1) hms, milestoneMessage (c + 1)]
        else [tickMessage (c + 1) hms],
        true) ∧
    (writeRun c ticks).1 = c + ticks.length := by
  refine ⟨?_, writeRun_counter ticks c⟩
  by_cases h10 : (c + 1) % 10 = 0 <;> simp [writeTick, h10]

/-- C6 confirmed: publishing always appends (never blocks, never
rejects); on a full buffer the oldest retained entry — and only it —
ages out of the retention window; and no publish outcome changes the
decision of the fan-out reader loop to continue. -/
theorem publish_total_eviction (h : Hub) (m id s : String) :
    (h.publish m).history = h.history ++ [m] ∧
    (0 < h.cap → h.cap ≤ h.history.length →
      h.retained (h.history.length - h.cap) ∧
      ¬ (h.publish m).retained (h.history.length - h.cap) ∧
      ∀ i, h.retained i → i ≠ h.history.length - h.cap → (h.publish m).retained i) ∧
    (recvTaskStep id h (.ok (.text s))).act = .cont := by
  refine ⟨rfl, ?_, rfl⟩
  intro hcap hfull
  refine ⟨?_, ?_, ?_⟩
  · unfold Hub.retained
    omega
  · unfold Hub.retained Hub.publish
    simp
    omega
  · intro i hi hne
    unfold Hub.retained at hi ⊢
    unfold Hub.publish
    simp
    omega

/-- C6 witness: a full capacity-2 hub; index 0 is retained before the
publish and evicted by it. -/
theorem publish_total_eviction_witness :
    Hub.retained ⟨2, ["a", "b"]⟩ 0 ∧
    ¬ Hub.retained (Hub.publish ⟨2, ["a", "b"]⟩ "c") 0 ∧
    (Hub.publish ⟨2, ["a", "b"]⟩ "c").history = ["a", "b"] ++ ["c"] :=
  have t := publish_total_eviction ⟨2, ["a", "b"]⟩ "c" "u" "s"
  have e := t.2.1 (by decide) (by decide)
  ⟨e.1, e.2.1, t.1⟩

/-- C7 confirmed: both reader loops leave their loop exactly on a
`Close` frame or a transport read error — every other frame kind
continues the loop — and neither reader ever writes a frame to the
connection. -/
theorem reader_halt_iff (id : String) (h : Hub) (item : Except String Frame) :
    ((recvTaskStep id h item).act = .halt ↔
      (∃ r, item = .ok (.close r)) ∨ ∃ e, item = .error e) ∧
    (recvTaskStep id h item).writes = [] ∧
    ((readLoopStep item).2 = .halt ↔
      (∃ r, item = .ok (.close r)) ∨ ∃ e, item = .error e) ∧
    (readLoopStep item).1 = [] := by
  rcases item with e | f
  · simp [recvTaskStep, readLoopStep]
  · cases f <;> simp [recvTaskStep, readLoopStep]

/-- C8 confirmed: the cursor of a fresh subscription starts at the current
end of the publish history, and along any interleaving of publishes and
receives it only ever receives messages whose publish index is at least
that starting point — pre-subscription messages are never delivered. -/
theorem no_history (h0 : Hub) (ops : List HubOp) :
    Hub.subscribe h0 = h0.history.length ∧
    ∀ i ∈ (traceRun (subscribeAt h0) ops).receivedIdx, h0.history.length ≤ i := by
  refine ⟨rfl, ?_⟩
  have inv := traceRun_inv h0.history.length ops (subscribeAt h0)
    (le_refl _) (by simp [subscribeAt])
  exact inv.2

/-- C8 witness: subscribe after one publish, then one publish and one
receive; the received message has index 1, not the pre-subscription 0. -/
theorem no_history_witness :
    (Hub.mk 100 ["a"]).history.length ≤ 1 :=
  (no_history ⟨100, ["a"]⟩ [.pub "b", .recv]).2 1 (by decide)

/-- C9 confirmed: binary, ping and pong frames publish nothing (the hub
is unchanged), write nothing, and continue the loop; and any inbound
item that changes the hub is a text frame. -/
theorem non_text_no_publish (id : String) (h : Hub) (b : List Nat) :
    recvTaskStep id h (.ok (.binary b)) = ⟨h, [], .cont⟩ ∧
    recvTaskStep id h (.ok (.ping b)) = ⟨h, [], .cont⟩ ∧
    recvTaskStep id h (.ok (.pong b)) = ⟨h, [], .cont⟩ ∧
    ∀ item, (recvTaskStep id h item).hub ≠ h → ∃ s, item = .ok (.text s) := by
  refine ⟨rfl, rfl, rfl, ?_⟩
  intro item hne
  rcases item with e | f
  · exact absurd rfl hne
  · cases f with
    | text s => exact ⟨s, rfl⟩
    | binary b => exact absurd rfl hne
    | ping b => exact absurd rfl hne
    | pong b => exact absurd rfl hne
    | close r => exact absurd rfl hne

/-- C9 witness: a hub-changing item is indeed a text frame. -/
theorem non_text_no_publish_witness :
    recvTaskStep "u" ⟨100, []⟩ (.ok (.binary [0])) = ⟨⟨100, []⟩, [], .cont⟩ ∧
    ∃ s, (Except.ok (Frame.text "hi") : Except String Frame) = .ok (.text s) :=
  ⟨(non_text_no_publish "u" ⟨100, []⟩ [0]).1,
    (non_text_no_publish "u" ⟨100, []⟩ [0]).2.2.2 (.ok (.text "hi")) (by decide)⟩

/-- C10 confirmed: if the regular send fails at a milestone tick, no
frame at all is emitted and the loop halts — in particular the milestone
frame is not sent; and whenever two frames are emitted in one tick, the
regular send succeeded and the frames are exactly the regular message
immediately followed by the milestone. -/
theorem milestone_only_after_success (c : Nat) (hms : String) (okMil : Bool) :
    ((c + 1) % 10 = 0 → writeTick c hms false okMil = (c + 1, [], false)) ∧
    ∀ okReg, 2 ≤ (writeTick c hms okReg okMil).2.1.length →
      okReg = true ∧ okMil = true ∧ (c + 1) % 10 = 0 ∧
      (writeTick c hms okReg okMil).2.1 =
        [tickMessage (c + 1) hms, milestoneMessage (c + 1)] := by
  constructor
  · intro h10
    simp [writeTick, h10]
  · intro okReg hlen
    by_cases h10 : (c + 1) % 10 = 0 <;>
      cases okReg <;> cases okMil <;>
        simp [writeTick, h10] at hlen ⊢

/-- C10 witness: at the tick reaching counter 10, a failed regular send
emits nothing; with both sends succeeding the two frames are the regular
message immediately followed by the milestone. -/
theorem milestone_only_after_success_witness :
    writeTick 9 "t" false true = (10, [], false) ∧
    (writeTick 9 "t" true true).2.1 = [tickMessage 10 "t", milestoneMessage 10] :=
  ⟨(milestone_only_after_success 9 "t" true).1 (by decide),
    ((milestone_only_after_success 9 "t" true).2 true (by decide)).2.2.2⟩

end WsDemo
